/- Verification of the Home-Loan-Analytics core: the feature-vector
   contract of the four prediction endpoints in `app.py`, the chunked
   dataset loader, and the dashboard filter/aggregation callbacks in
   `pages/`.  Each definition is a shallow embedding of the
   corresponding Python code. -/
import Mathlib

namespace HomeLoan

/-! ## Payload values and Python numeric coercion

A JSON payload value reaching an endpoint is a number (integer or
decimal) or a string.  Decimals are modelled exactly as rationals. -/

/-- A scalar JSON value in a request payload: integer, decimal (modelled
as a rational), or string. -/
inductive Value
  | i (n : Int)
  | f (q : Rat)
  | s (str : String)
deriving DecidableEq

/-- The conversion applied to a field by the endpoint code: `raw` for the
endpoints that place `data[key]` in the feature list unchanged
(`predict`, `predict_interest_rate`, `predict_borrower_risk`), `int` /
`float` for the `int(data[key])` / `float(data[key])` wrappers used by
`predict_property_value`. -/
inductive FType
  | raw
  | int
  | float
deriving DecidableEq

/-- Request-scoped failures of the embedded endpoint code.
`missingField k` models the `KeyError` Python raises on `data[k]` for an
absent key `k` (the error names the key).  `typeCoercion v` models the
`ValueError` raised by `int(v)` / `float(v)` on a non-convertible value
(the error message names the value, not the field).  `libraryShape` is
the model library's own error on a dimensionality mismatch. -/
inductive Err
  | missingField (field : String)
  | typeCoercion (v : Value)
  | libraryShape (expected got : Nat)
deriving DecidableEq

deriving instance DecidableEq for Except

/-- Truncation toward zero, the behaviour of Python `int()` on a float. -/
def pyTrunc (q : Rat) : Int := q.num.tdiv (q.den : Int)

/-- Reads a run of decimal digits into an accumulator; any non-digit
character, or an empty run, yields `none`. -/
def pyDigits : List Char → Option Nat → Option Nat
  | [], acc => acc
  | c :: cs, acc =>
    if c.isDigit then
      pyDigits cs (some ((acc.getD 0) * 10 + (c.toNat - '0'.toNat)))
    else none

/-- Python `int()` on a string: an optional minus sign followed by
digits; a decimal string such as `"2.5"` or a non-numeric string fails
(`ValueError`). -/
def pyIntOfString (str : String) : Option Int :=
  match str.toList with
  | '-' :: cs => (pyDigits cs none).map (fun n => -(n : Int))
  | cs => (pyDigits cs none).map (fun n => (n : Int))

/-- Python `float()` on a nonnegative decimal literal
`digits[.digits]`. -/
def pyFloatNonneg (cs : List Char) : Option Rat :=
  match cs.dropWhile (fun c => c != '.') with
  | [] => (pyDigits cs none).map (fun n => (n : Rat))
  | _ :: fracs =>
    match pyDigits (cs.takeWhile (fun c => c != '.')) none,
        pyDigits fracs none with
    | some ip, some fp =>
      some ((ip : Rat) + (fp : Rat) / ((10 : Rat) ^ fracs.length))
    | _, _ => none

/-- Python `float()` on a string: an optional leading minus sign
followed by a decimal literal; a non-numeric string fails
(`ValueError`). -/
def pyFloatOfString (str : String) : Option Rat :=
  match str.toList with
  | '-' :: cs => (pyFloatNonneg cs).map Neg.neg
  | cs => pyFloatNonneg cs

/-- Applies the declared conversion of a field to a payload value,
mirroring `int(...)` / `float(...)` in `predict_property_value`; the
`raw` case is the identity (the other endpoints convert nothing).  A
failed conversion carries the offending value, as Python's `ValueError`
does. -/
def coerce : FType → Value → Except Err Value
  | .raw, v => .ok v
  | .int, .i n => .ok (.i n)
  | .int, .f q => .ok (.i (pyTrunc q))
  | .int, .s str =>
    match pyIntOfString str with
    | some n => .ok (.i n)
    | none => .error (.typeCoercion (.s str))
  | .float, .i n => .ok (.f (n : Rat))
  | .float, .f q => .ok (.f q)
  | .float, .s str =>
    match pyFloatOfString str with
    | some q => .ok (.f q)
    | none => .error (.typeCoercion (.s str))

/-- A request payload: the flat JSON object, a finite map from field
names to values. -/
def Payload : Type := List (String × Value)

/-- Dictionary lookup `data[k]`: the value when the key is present,
otherwise the `KeyError` naming exactly that key. -/
def fetch (p : Payload) (k : String) : Except Err Value :=
  match p.lookup k with
  | some v => .ok v
  | none => .error (.missingField k)

/-- One element of a feature list: `data[k]`, `int(data[k])` or
`float(data[k])` according to the field's declared conversion (the
lookup is evaluated first, then the conversion, as in Python). -/
def coerceAt (p : Payload) (kt : String × FType) : Except Err Value :=
  match fetch p kt.1 with
  | .error e => .error e
  | .ok v => coerce kt.2 v

/-- The feature-list literal of an endpoint: for each schema field in
order, evaluate its lookup-and-conversion, collecting the results; the
first failure aborts, exactly as Python evaluates
`features = [int(data[k1]), ...]` left to right. -/
def assemble (schema : List (String × FType)) (p : Payload) :
    Except Err (List Value) :=
  match schema with
  | [] => .ok []
  | kt :: rest =>
    match coerceAt p kt with
    | .error e => .error e
    | .ok w =>
      match assemble rest p with
      | .error e => .error e
      | .ok ws => .ok (w :: ws)

/-! ## Endpoint feature schemas

The four `features` list literals of `app.py`, transcribed in source
order. -/

/-- The ordered field list of the `/predict` (loan approval) endpoint:
the 45 keys read from the payload, in the order of the `features` list
literal of `predict` in `app.py`; no conversion is applied to any of
them. -/
def approvalSchema : List (String × FType) := [
  ("purchaser_type", .raw),
  ("preapproval", .raw),
  ("reverse_mortgage", .raw),
  ("open_end_line_of_credit", .raw),
  ("loan_amount", .raw),
  ("loan_to_value_ratio", .raw),
  ("interest_rate", .raw),
  ("loan_term", .raw),
  ("negative_amortization", .raw),
  ("interest_only_payment", .raw),
  ("balloon_payment", .raw),
  ("other_nonamortizing_features", .raw),
  ("property_value", .raw),
  ("total_units", .raw),
  ("income", .raw),
  ("applicant_credit_score_type", .raw),
  ("co_applicant_credit_score_type", .raw),
  ("applicant_age_above_62", .raw),
  ("co_applicant_age_above_62", .raw),
  ("tract_population", .raw),
  ("tract_minority_population_percent", .raw),
  ("ffiec_msa_md_median_family_income", .raw),
  ("tract_to_msa_income_percentage", .raw),
  ("tract_owner_occupied_units", .raw),
  ("tract_median_age_of_housing_units", .raw),
  ("derived_loan_product_type_FHA_First_Lien", .raw),
  ("derived_loan_product_type_FSA_RHS_First_Lien", .raw),
  ("derived_loan_product_type_VA_First_Lien", .raw),
  ("derived_dwelling_category_Multifamily_Site_Built", .raw),
  ("derived_dwelling_category_SingleFamily_Manufactured", .raw),
  ("loan_purpose_2", .raw),
  ("loan_purpose_4", .raw),
  ("loan_purpose_5", .raw),
  ("loan_purpose_31", .raw),
  ("loan_purpose_32", .raw),
  ("occupancy_type_2", .raw),
  ("occupancy_type_3", .raw),
  ("submission_of_application_2", .raw),
  ("initially_payable_to_institution_2", .raw),
  ("aus_1_2", .raw),
  ("aus_1_3", .raw),
  ("aus_1_4", .raw),
  ("aus_1_5", .raw),
  ("aus_1_6", .raw),
  ("aus_1_7", .raw)]

/-- The ordered field list of the `/predict_interest_rate` endpoint: the
30 keys of the `features` list literal of `predict_interest_rate` in
`app.py`; no conversion is applied. -/
def interestRateSchema : List (String × FType) := [
  ("loan_amount", .raw),
  ("loan_term", .raw),
  ("loan_purpose_2", .raw),
  ("loan_purpose_4", .raw),
  ("loan_purpose_5", .raw),
  ("loan_type_2", .raw),
  ("loan_type_3", .raw),
  ("lien_status_2", .raw),
  ("negative_amortization", .raw),
  ("interest_only_payment", .raw),
  ("balloon_payment", .raw),
  ("other_nonamortizing_features", .raw),
  ("conforming_loan_limit_NC", .raw),
  ("derived_loan_product_type_Conventional:Subordinate Lien", .raw),
  ("derived_loan_product_type_FHA:First Lien", .raw),
  ("derived_loan_product_type_VA:First Lien", .raw),
  ("derived_loan_product_type_VA:Subordinate Lien", .raw),
  ("applicant_credit_score_type", .raw),
  ("co-applicant_credit_score_type", .raw),
  ("co-applicant_age", .raw),
  ("applicant_age_above_62", .raw),
  ("occupancy_type_3", .raw),
  ("manufactured_home_secured_property_type_2", .raw),
  ("manufactured_home_land_property_interest_3", .raw),
  ("submission_of_application_3", .raw),
  ("initially_payable_to_institution_3", .raw),
  ("purchaser_type", .raw),
  ("business_or_commercial_purpose", .raw),
  ("open-end_line_of_credit", .raw),
  ("reverse_mortgage", .raw)]

/-- The ordered field list of the `/predict_borrower_risk` endpoint: the
38 keys of the `features` list literal of `predict_borrower_risk` in
`app.py`; no conversion is applied. -/
def borrowerRiskSchema : List (String × FType) := [
  ("debt_to_income_ratio", .raw),
  ("loan_to_value_ratio", .raw),
  ("interest_rate", .raw),
  ("loan_amount", .raw),
  ("rate_spread", .raw),
  ("total_loan_costs", .raw),
  ("origination_charges", .raw),
  ("loan_term", .raw),
  ("income", .raw),
  ("property_value", .raw),
  ("applicant_credit_score_type", .raw),
  ("co_applicant_credit_score_type", .raw),
  ("co_applicant_age", .raw),
  ("applicant_age_above_62", .raw),
  ("co_applicant_age_above_62", .raw),
  ("loan_type_2", .raw),
  ("loan_type_3", .raw),
  ("loan_type_4", .raw),
  ("loan_purpose_2", .raw),
  ("loan_purpose_4", .raw),
  ("loan_purpose_5", .raw),
  ("loan_purpose_31", .raw),
  ("loan_purpose_32", .raw),
  ("derived_loan_product_type_Conventional:Subordinate_Lien", .raw),
  ("derived_loan_product_type_FHA:First_Lien", .raw),
  ("derived_loan_product_type_FHA:Subordinate_Lien", .raw),
  ("derived_loan_product_type_FSA/RHS:First_Lien", .raw),
  ("derived_loan_product_type_FSA/RHS:Subordinate_Lien", .raw),
  ("derived_loan_product_type_VA:First_Lien", .raw),
  ("derived_loan_product_type_VA:Subordinate_Lien", .raw),
  ("occupancy_type_2", .raw),
  ("occupancy_type_3", .raw),
  ("derived_dwelling_category_Multifamily:Site-Built", .raw),
  ("derived_dwelling_category_Single Family (1-4 Units):Manufactured", .raw),
  ("derived_dwelling_category_Single Family (1-4 Units):Site-Built", .raw),
  ("derived_msa-md", .raw),
  ("tract_minority_population_percent", .raw),
  ("ffiec_msa_md_median_family_income", .raw)]

/-- The ordered field list of the `/predict_property_value` endpoint:
the 52 keys of the `features` list literal of `predict_property_value`
in `app.py`, each with the `int(...)` or `float(...)` conversion the
source wraps around its lookup. -/
def propertyValueSchema : List (String × FType) := [
  ("purchaser_type", .int),
  ("preapproval", .int),
  ("reverse_mortgage", .int),
  ("open-end_line_of_credit", .int),
  ("business_or_commercial_purpose", .int),
  ("loan_amount", .float),
  ("loan_to_value_ratio", .float),
  ("interest_rate", .float),
  ("loan_term", .int),
  ("negative_amortization", .int),
  ("interest_only_payment", .int),
  ("balloon_payment", .int),
  ("other_nonamortizing_features", .int),
  ("total_units", .int),
  ("income", .float),
  ("applicant_credit_score_type", .int),
  ("co-applicant_credit_score_type", .int),
  ("co-applicant_age", .int),
  ("applicant_age_above_62", .int),
  ("co-applicant_age_above_62", .int),
  ("tract_population", .int),
  ("tract_minority_population_percent", .float),
  ("ffiec_msa_md_median_family_income", .float),
  ("tract_to_msa_income_percentage", .float),
  ("tract_owner_occupied_units", .int),
  ("tract_median_age_of_housing_units", .int),
  ("derived_loan_product_type_Conventional:Subordinate Lien", .int),
  ("derived_loan_product_type_FHA:First Lien", .int),
  ("derived_loan_product_type_FHA:Subordinate Lien", .int),
  ("derived_loan_product_type_FSA/RHS:First Lien", .int),
  ("derived_loan_product_type_FSA/RHS:Subordinate Lien", .int),
  ("derived_loan_product_type_VA:First Lien", .int),
  ("derived_loan_product_type_VA:Subordinate Lien", .int),
  ("derived_dwelling_category_Multifamily:Site-Built", .int),
  ("derived_dwelling_category_Single Family (1-4 Units):Manufactured", .int),
  ("conforming_loan_limit_NC", .int),
  ("conforming_loan_limit_U", .int),
  ("loan_purpose_2", .int),
  ("loan_purpose_4", .int),
  ("loan_purpose_5", .int),
  ("loan_purpose_31", .int),
  ("loan_purpose_32", .int),
  ("occupancy_type_2", .int),
  ("occupancy_type_3", .int),
  ("manufactured_home_secured_property_type_2", .int),
  ("manufactured_home_secured_property_type_1111", .int),
  ("manufactured_home_land_property_interest_2", .int),
  ("manufactured_home_land_property_interest_3", .int),
  ("manufactured_home_land_property_interest_4", .int),
  ("submission_of_application_2", .int),
  ("submission_of_application_1111", .int),
  ("initially_payable_to_institution_2", .int)]

/-- The four endpoint schemas. -/
def endpointSchemas : List (List (String × FType)) :=
  [approvalSchema, interestRateSchema, borrowerRiskSchema, propertyValueSchema]

/-! ## Prediction invoker -/

/-- An opaque trained predictor artifact: its expected input
dimensionality and its inference function. -/
structure Model where
  dim : Nat
  run : List Value → Rat

/-- Modelled from the spec: the external model library (absent from this
repository) raises its own, library-level error when the input vector's
length differs from the model's expected input dimensionality, and
otherwise evaluates the model.  The repository code calls it directly. -/
def libPredict (m : Model) (v : List Value) : Except Err Rat :=
  if v.length = m.dim then .ok (m.run v) else .error (.libraryShape m.dim v.length)

/-- The `/predict` route body: build the 45-entry feature list from the
payload, then hand it straight to the model library
(`model.predict(features_array)`).  The source performs no validation of
the vector's length between assembly and invocation. -/
def predictRoute (m : Model) (p : Payload) : Except Err Rat :=
  match assemble approvalSchema p with
  | .error e => .error e
  | .ok features => libPredict m features

/-! ## Chunked dataset loader

`load_chunked_data_from_db` (identical in all five `pages/` modules)
streams rows in chunks of `chunksize`, appends each chunk, and breaks
once the cumulative row count reaches `max_rows`.  Rows are opaque
here; the SQL source is modelled as the list of rows it yields in
order, of which `pandas` serves successive `chunksize`-sized chunks. -/

/-- The loader's read loop: take the next chunk, append it, accumulate
the running row count, and stop once it reaches `maxRows` (the cap is
checked only after a whole chunk is appended, as in the source).  The
`chSize = 0` guard is never reached from the loader (pandas requires a
positive chunksize); it only makes the recursion well-founded. -/
def loadLoop (chSize maxRows : Nat) (total : Nat) (src : List α) : List α :=
  match src with
  | [] => []
  | a :: rest =>
    if _hc : chSize = 0 then []
    else
      if maxRows ≤ total + ((a :: rest).take chSize).length then
        (a :: rest).take chSize
      else
        (a :: rest).take chSize ++
          loadLoop chSize maxRows (total + ((a :: rest).take chSize).length)
            ((a :: rest).drop chSize)
termination_by src.length
decreasing_by
  simp only [List.length_drop, List.length_cons]
  omega

/-- `load_chunked_data_from_db`: stream `src` in `chSize`-row chunks,
concatenating until the cumulative count reaches `maxRows`. -/
def load_chunked_data_from_db (src : List α) (chSize maxRows : Nat) : List α :=
  loadLoop chSize maxRows 0 src

/-! ## Dashboard records and normalization

A record of the loaded dataset, restricted to the columns the embedded
callbacks read.  Columns run through `pd.to_numeric(..., errors="coerce")`
are `Option`-valued: `none` is the `NaN` a non-numeric raw value becomes;
any comparison with `none` is false, and means skip it, as in pandas. -/

/-- One loan-application record (the columns used by the embedded
callbacks). -/
structure Row where
  activity_year : Option Int
  state_code : String
  action_taken : Option Int
  loan_amount : Option Rat
  interest_rate : Option Rat
  property_value : Option Rat
  loan_to_value_ratio : Option Rat
  conforming_loan_limit : String
  loan_type : String
  lien_status : String
  hoepa_status : String
  loan_purpose : String
deriving DecidableEq

/-- A baseline record to build concrete fixtures from. -/
def row0 : Row :=
  { activity_year := some 2019
    state_code := "CA"
    action_taken := some 1
    loan_amount := some 200000
    interest_rate := some 4
    property_value := some 300000
    loan_to_value_ratio := some 80
    conforming_loan_limit := "C"
    loan_type := "1"
    lien_status := "1"
    hoepa_status := "2"
    loan_purpose := "1" }

/-- The `action_labels` code-to-label dictionary of
`pages/page1_overview.py`. -/
def action_labels : List (Int × String) :=
  [(1, "Loan Approved"),
   (2, "Approved but Not Accepted"),
   (3, "Denied"),
   (8, "Preapproval Approved but Not Accepted")]

/-- The `action_label` derivation of `pages/page1_overview.py`, line 91:
`df["action_taken"].map(action_labels)` with no `fillna` — a code (or a
missing value) not present in the dictionary becomes `NaN` (`none`). -/
def actionLabel (code : Option Int) : Option String :=
  code.bind (fun c => action_labels.lookup c)

/-- The `loan_type_map` code-to-label dictionary of
`pages/page5_denials.py`. -/
def loan_type_map : List (String × String) :=
  [("1", "Conventional (not insured or guaranteed)"),
   ("2", "FHA insured"),
   ("3", "VA guaranteed"),
   ("4", "RHS/FSA guaranteed")]

/-- The `loan_type` derivation of `pages/page5_denials.py`:
`.map(loan_type_map).fillna(df["loan_type"])` — an unmapped value falls
back to the original value. -/
def loanTypeLabel (v : String) : String := (loan_type_map.lookup v).getD v

/-- The `purpose_map` code-to-label dictionary of
`pages/page4_geographic.py`. -/
def purpose_map : List (String × String) :=
  [("1", "Home purchase"),
   ("2", "Home improvement"),
   ("31", "Refinancing"),
   ("32", "Cash-out refinancing"),
   ("4", "Other purpose")]

/-- The `loan_purpose` relabelling inside `update_geographic_insights`:
`.map(purpose_map).fillna(dff["loan_purpose"])` — an unmapped value
falls back to the original value. -/
def purposeLabel (v : String) : String := (purpose_map.lookup v).getD v

/-- Pandas `Series.mean()`: the mean of the present values, `NaN`
(`none`) when every value is missing. -/
def pandasMean (xs : List (Option Rat)) : Option Rat :=
  let present := xs.filterMap id
  if present.isEmpty then none
  else some (present.sum / (present.length : Rat))

/-- Pandas `series >= bound` for a possibly-missing value: `NaN`
compares false. -/
def numGe (v : Option Int) (bound : Int) : Bool :=
  match v with
  | some y => bound ≤ y
  | none => false

/-- Pandas `series <= bound` for a possibly-missing value: `NaN`
compares false. -/
def numLe (v : Option Int) (bound : Int) : Bool :=
  match v with
  | some y => y ≤ bound
  | none => false

/-! ## Page 1 (overview) callback -/

/-- The ids of the eight `Output(...)` declarations on the `update_page`
callback of `pages/page1_overview.py` (the `kpi-denial` output is
commented out in the source). -/
def page1Outputs : List String :=
  ["outcome-pie", "bar-outcome-year", "state-map", "line-total-apps",
   "kpi-total", "kpi-approval", "kpi-loan", "kpi-interest"]

/-- One value returned by a dashboard callback.  Figures are opaque
(chart rendering is presentational): `figEmpty` is the literal `{}`
placeholder, `fig id` a rendered figure.  KPI outputs carry the computed
number (`kpiRate none` is the `NaN` of an all-missing mean); the string
formatting applied to them in the source is elided as presentational. -/
inductive Out
  | figEmpty
  | fig (id : String)
  | txt (str : String)
  | kpiCount (n : Nat)
  | kpiRate (q : Option Rat)
deriving DecidableEq

/-- The filter stage of `update_page` (page 1): keep rows whose
`activity_year` lies in the slider range, then, when a state is
selected, rows matching it. -/
def pageFiltered (df : List Row) (y0 y1 : Int) (state : Option String) :
    List Row :=
  let f1 := df.filter (fun r => numGe r.activity_year y0 && numLe r.activity_year y1)
  match state with
  | none => f1
  | some st => f1.filter (fun r => r.state_code == st)

/-- The `update_page` callback of `pages/page1_overview.py`: filter,
then either the literal empty-view return
`{}, {}, {}, "0%", "0%", "$0", "0%"` (seven values) or the eight
computed outputs (four figures, then total, approval rate, average loan
amount, average interest rate). -/
def update_page (df : List Row) (y0 y1 : Int) (state : Option String) :
    List Out :=
  let filtered := pageFiltered df y0 y1 state
  if filtered.isEmpty then
    [Out.figEmpty, Out.figEmpty, Out.figEmpty,
     Out.txt "0%", Out.txt "0%", Out.txt "$0", Out.txt "0%"]
  else
    let total := filtered.length
    let approved := (filtered.filter (fun r => r.action_taken == some 1)).length
    [Out.fig "outcome-pie", Out.fig "bar-outcome-year", Out.fig "state-map",
     Out.fig "line-total-apps",
     Out.kpiCount total,
     Out.kpiRate (some ((approved : Rat) / (total : Rat) * 100)),
     Out.kpiRate (pandasMean (filtered.map (fun r => r.loan_amount))),
     Out.kpiRate (pandasMean (filtered.map (fun r => r.interest_rate)))]

/-! ## Page 3 (risk) callback filters -/

/-- The filter stage of `update_risk` (page 3): four multi-select
dropdowns applied in sequence; an empty selection (Python-falsy `None`
or `[]`) skips that dimension. -/
def riskFiltered (df : List Row)
    (limits types liens hoepas : List String) : List Row :=
  let d1 := if limits.isEmpty then df
    else df.filter (fun r => limits.contains r.conforming_loan_limit)
  let d2 := if types.isEmpty then d1
    else d1.filter (fun r => types.contains r.loan_type)
  let d3 := if liens.isEmpty then d2
    else d2.filter (fun r => liens.contains r.lien_status)
  if hoepas.isEmpty then d3
  else d3.filter (fun r => hoepas.contains r.hoepa_status)

/-! ## Page 4 (geographic) callback -/

/-- The per-row `loan_purpose` relabelling of
`update_geographic_insights`. -/
def labelRow (r : Row) : Row := { r with loan_purpose := purposeLabel r.loan_purpose }

/-- The data-preparation stage of `update_geographic_insights`
(`pages/page4_geographic.py`): optional year/state/purpose filters, the
purpose relabelling, then the two unconditional exclusions
`dff[dff["loan_purpose"] != "5"]` and
`dff[dff["loan_purpose"] != "Not applicable"]`.  Both groupbys
(state-level and purpose-level) aggregate exactly this list. -/
def geoFiltered (df : List Row) (year : Option Int)
    (state purpose : Option String) : List Row :=
  let d0 := match year with
    | none => df
    | some y => df.filter (fun r => r.activity_year == some y)
  let d1 := match state with
    | none => d0
    | some st => d0.filter (fun r => r.state_code == st)
  let d2 := match purpose with
    | none => d1
    | some pp => d1.filter (fun r => r.loan_purpose == pp)
  let d3 := (d2.map labelRow).filter (fun r => r.loan_purpose != "5")
  d3.filter (fun r => r.loan_purpose != "Not applicable")

/-! ## Concrete fixtures used by witnesses and counterexamples -/

/-- A payload supplying every approval-schema field with the integer 7. -/
def pay1 : Payload := approvalSchema.map (fun kt => (kt.1, Value.i 7))

/-- The feature vector `pay1` assembles to. -/
def vec1 : List Value := List.replicate 45 (Value.i 7)

/-- A payload like `pay1` but with the string `"250000"` for
`loan_amount`. -/
def pay3 : Payload :=
  approvalSchema.map (fun kt =>
    (kt.1, if kt.1 = "loan_amount" then Value.s "250000" else Value.i 7))

/-- The feature vector `pay3` assembles to: position 4 holds the raw,
unconverted string. -/
def vec3 : List Value := (List.replicate 45 (Value.i 7)).set 4 (Value.s "250000")

/-- A property-value payload whose first field is present but carries a
non-numeric string, and whose remaining 51 fields are all absent. -/
def pvPayloadBad : Payload := [("purchaser_type", Value.s "abc")]

/-- A model handle expecting 44 inputs. -/
def model44 : Model := { dim := 44, run := fun _ => 0 }

/-- A model handle expecting 10 inputs. -/
def model10 : Model := { dim := 10, run := fun _ => 0 }

/-- A ten-row source for the loader. -/
def src4 : List Nat := [0, 1, 2, 3, 4, 5, 6, 7, 8, 9]

/-- A record whose `activity_year` failed numeric coercion (`NaN`). -/
def rowNoYear : Row := { row0 with activity_year := none }

/-- A two-record dataset: one 2019 record and one record with a missing
year. -/
def dfC8 : List Row := [row0, rowNoYear]

/-- The distinct years present in a dataset
(`df["activity_year"].dropna().unique()`), from which the slider's full
extent is built. -/
def yearsPresent (df : List Row) : List Int :=
  (df.filterMap (fun r => r.activity_year)).dedup

/-- A record whose `loan_purpose` is the code `"5"`. -/
def rowP5 : Row := { row0 with loan_purpose := "5" }

/-- The rational 5/2 = 2.5, given in reduced literal form so that
kernel evaluation of payloads containing it never normalizes a
fraction. -/
def q25 : Rat := ⟨5, 2, by norm_num, by norm_num⟩

/-! ## General lemmas -/

theorem assemble_ok_length {schema : List (String × FType)} {p : Payload}
    {v : List Value} (h : assemble schema p = .ok v) :
    v.length = schema.length := by
  induction schema generalizing v with
  | nil =>
    simp only [assemble] at h
    cases h
    rfl
  | cons kt rest ih =>
    rw [assemble] at h
    cases hc : coerceAt p kt with
    | error e => rw [hc] at h; cases h
    | ok w =>
      rw [hc] at h
      cases ha : assemble rest p with
      | error e => rw [ha] at h; cases h
      | ok ws =>
        rw [ha] at h
        cases h
        simp [ih ha]

theorem assemble_ok_get {schema : List (String × FType)} {p : Payload}
    {v : List Value} (h : assemble schema p = .ok v) :
    ∀ idx kt, schema.get? idx = some kt →
      ∃ w, v.get? idx = some w ∧ coerceAt p kt = .ok w := by
  induction schema generalizing v with
  | nil => intro idx kt hk; simp at hk
  | cons kt0 rest ih =>
    rw [assemble] at h
    cases hc : coerceAt p kt0 with
    | error e => rw [hc] at h; cases h
    | ok w =>
      rw [hc] at h
      cases ha : assemble rest p with
      | error e => rw [ha] at h; cases h
      | ok ws =>
        rw [ha] at h
        cases h
        intro idx kt hk
        match idx with
        | 0 =>
          simp only [List.get?_cons_zero, Option.some.injEq] at hk
          subst hk
          exact ⟨w, rfl, hc⟩
        | idx + 1 =>
          simp only [List.get?_cons_succ] at hk ⊢
          exact ih ha idx kt hk

theorem assemble_not_ok_of_missing {schema : List (String × FType)}
    {p : Payload} {kt : String × FType} (hmem : kt ∈ schema)
    (hnone : p.lookup kt.1 = none) :
    ∀ v, assemble schema p ≠ .ok v := by
  induction schema with
  | nil => cases hmem
  | cons kt0 rest ih =>
    intro v hok
    rw [assemble] at hok
    cases hc : coerceAt p kt0 with
    | error e => rw [hc] at hok; cases hok
    | ok w =>
      rw [hc] at hok
      rcases List.mem_cons.mp hmem with heq | htail
      · subst heq
        rw [coerceAt, fetch, hnone] at hc
        cases hc
      · cases ha : assemble rest p with
        | error e => rw [ha] at hok; cases hok
        | ok ws => exact ih htail ws ha

theorem assemble_first_missing {p : Payload}
    (s₁ : List (String × FType)) (kt : String × FType)
    (s₂ : List (String × FType))
    (hpre : ∀ kt₁ ∈ s₁, ∃ w, coerceAt p kt₁ = .ok w)
    (hnone : p.lookup kt.1 = none) :
    assemble (s₁ ++ kt :: s₂) p = .error (.missingField kt.1) := by
  induction s₁ with
  | nil =>
    rw [List.nil_append, assemble, coerceAt, fetch, hnone]
  | cons kt0 rest ih =>
    obtain ⟨w, hw⟩ := hpre kt0 (List.mem_cons_self kt0 rest)
    have hrest : ∀ kt₁ ∈ rest, ∃ w, coerceAt p kt₁ = .ok w :=
      fun kt₁ hk => hpre kt₁ (List.mem_cons_of_mem kt0 hk)
    rw [List.cons_append, assemble, hw, ih hrest]

theorem coerce_error_names_value {fty : FType} {v : Value} {e : Err}
    (h : coerce fty v = .error e) : e = .typeCoercion v := by
  cases fty with
  | raw => cases h
  | int =>
    cases v with
    | i n => cases h
    | f q => cases h
    | s str =>
      rw [coerce] at h
      cases hp : pyIntOfString str with
      | some n => rw [hp] at h; cases h
      | none => rw [hp] at h; cases h; rfl
  | float =>
    cases v with
    | i n => cases h
    | f q => cases h
    | s str =>
      rw [coerce] at h
      cases hp : pyFloatOfString str with
      | some q => rw [hp] at h; cases h
      | none => rw [hp] at h; cases h; rfl

theorem loadLoop_isPre (chSize maxRows : Nat) :
    ∀ (fuel : Nat) (src : List α), src.length ≤ fuel →
      ∀ total, loadLoop chSize maxRows total src <+: src := by
  intro fuel
  induction fuel with
  | zero =>
    intro src hlen total
    have hsrc : src = [] := List.length_eq_zero.mp (Nat.le_zero.mp hlen)
    subst hsrc
    rw [loadLoop]
  | succ n ih =>
    intro src hlen total
    cases src with
    | nil => rw [loadLoop]
    | cons a rest =>
      rw [loadLoop]
      split
      · exact List.nil_prefix
      · split
        · exact List.take_prefix _ _
        · have hdrop : ((a :: rest).drop chSize).length ≤ n := by
            simp only [List.length_drop, List.length_cons]
            simp only [List.length_cons] at hlen
            omega
          obtain ⟨t, ht⟩ :=
            ih ((a :: rest).drop chSize) hdrop
              (total + ((a :: rest).take chSize).length)
          exact ⟨t, by rw [List.append_assoc, ht, List.take_append_drop]⟩

theorem loadLoop_small (chSize maxRows : Nat) (hch : 1 ≤ chSize) :
    ∀ (fuel : Nat) (src : List α), src.length ≤ fuel →
      ∀ total, total + src.length < maxRows →
        loadLoop chSize maxRows total src = src := by
  intro fuel
  induction fuel with
  | zero =>
    intro src hlen total _
    have hsrc : src = [] := List.length_eq_zero.mp (Nat.le_zero.mp hlen)
    subst hsrc
    rw [loadLoop]
  | succ n ih =>
    intro src hlen total hsmall
    cases src with
    | nil => rw [loadLoop]
    | cons a rest =>
      rw [loadLoop]
      split
      · omega
      · have htake : ((a :: rest).take chSize).length =
            min chSize (a :: rest).length := List.length_take _ _
        have hpos : (a :: rest).length = rest.length + 1 := List.length_cons _ _
        split
        · rename_i hbreak
          rw [htake] at hbreak
          omega
        · have hdrop : ((a :: rest).drop chSize).length ≤ n := by
            simp only [List.length_drop, List.length_cons]
            simp only [List.length_cons] at hlen
            omega
          rw [ih ((a :: rest).drop chSize) hdrop
            (total + ((a :: rest).take chSize).length)
            (by simp only [List.length_drop]; omega)]
          exact List.take_append_drop _ _

theorem loadLoop_capped (chSize maxRows : Nat) (hch : 1 ≤ chSize) :
    ∀ (fuel : Nat) (src : List α), src.length ≤ fuel →
      ∀ total, total < maxRows → maxRows + chSize ≤ total + src.length →
        maxRows ≤ total + (loadLoop chSize maxRows total src).length ∧
          total + (loadLoop chSize maxRows total src).length + 1 ≤
            maxRows + chSize := by
  intro fuel
  induction fuel with
  | zero =>
    intro src hlen total htot hbig
    omega
  | succ n ih =>
    intro src hlen total htot hbig
    cases src with
    | nil => simp at hbig; omega
    | cons a rest =>
      have hlt : chSize < (a :: rest).length := by
        simp only [List.length_cons] at hbig ⊢
        omega
      have htake : ((a :: rest).take chSize).length = chSize := by
        rw [List.length_take]
        omega
      rw [loadLoop]
      split
      · omega
      · split
        · rename_i hbreak
          rw [htake] at hbreak ⊢
          omega
        · rename_i hc hnobreak
          rw [htake] at hnobreak ⊢
          have hdrop : ((a :: rest).drop chSize).length ≤ n := by
            simp only [List.length_drop, List.length_cons]
            simp only [List.length_cons] at hlen
            omega
          have hrec := ih ((a :: rest).drop chSize) hdrop (total + chSize)
            (by omega)
            (by simp only [List.length_drop]; simp only [List.length_cons] at hbig ⊢; omega)
          rw [List.length_append, htake]
          omega

/-! ## Claims -/

/-- C1: for every payload from which an endpoint's feature vector is
assembled, the vector has the schema's length and its `idx`-th element
is exactly the (coerced) payload value of the `idx`-th schema field, for
every index — schema order is preserved, for each of the four endpoint
schemas. -/
theorem C1_schema_order_invariance :
    ∀ schema ∈ endpointSchemas, ∀ (p : Payload) (v : List Value),
      assemble schema p = .ok v →
        v.length = schema.length ∧
        ∀ idx kt, schema.get? idx = some kt →
          ∃ w, v.get? idx = some w ∧ coerceAt p kt = .ok w := by
  intro schema _ p v h
  exact ⟨assemble_ok_length h, assemble_ok_get h⟩

/-- Witness for C1: the approval endpoint on a payload supplying every
field; position 0 of the assembled vector is the looked-up value of the
first schema field, `purchaser_type`. -/
theorem C1_schema_order_invariance_witness :
    vec1.length = approvalSchema.length ∧
    ∃ w, vec1.get? 0 = some w ∧
      coerceAt pay1 ("purchaser_type", FType.raw) = .ok w := by
  have h := C1_schema_order_invariance approvalSchema (by decide) pay1 vec1
    (by decide)
  exact ⟨h.1, h.2 0 ("purchaser_type", FType.raw) (by decide)⟩

/-- C2 counterexample: on the property-value schema, a payload whose
first field holds the non-numeric string `"abc"` and which is missing
every other field (first missing field: `preapproval`) makes assembly
fail with the coercion error for `"abc"`, not with a missing-field
error naming `preapproval` — so a payload missing a required field does
not always fail with `MissingFieldError`. -/
theorem C2_counterexample :
    (pvPayloadBad.lookup "purchaser_type").isSome = true ∧
    pvPayloadBad.lookup "preapproval" = none ∧
    assemble propertyValueSchema pvPayloadBad =
      .error (.typeCoercion (Value.s "abc")) ∧
    Err.typeCoercion (Value.s "abc") ≠ Err.missingField "preapproval" := by
  decide

/-- C2 amended: a payload missing a required field never assembles
(nothing is defaulted or zero-filled), and whenever every field before
the first missing one converts successfully — always true on the three
conversion-free schemas — assembly fails with the missing-field error
naming exactly that first missing field. -/
theorem C2_strict_missing_field :
    ∀ (p : Payload) (s₁ : List (String × FType)) (kt : String × FType)
      (s₂ : List (String × FType)),
      p.lookup kt.1 = none →
      (∀ v, assemble (s₁ ++ kt :: s₂) p ≠ .ok v) ∧
      ((∀ kt₁ ∈ s₁, ∃ w, coerceAt p kt₁ = .ok w) →
        assemble (s₁ ++ kt :: s₂) p = .error (.missingField kt.1)) := by
  intro p s₁ kt s₂ hnone
  refine ⟨assemble_not_ok_of_missing ?_ hnone,
    fun hpre => assemble_first_missing s₁ kt s₂ hpre hnone⟩
  exact List.mem_append.mpr (Or.inr (List.mem_cons_self _ _))

/-- Witness for C2: a two-field schema whose second field is absent from
the payload fails with the missing-field error naming it. -/
theorem C2_strict_missing_field_witness :
    assemble ([("debt_to_income_ratio", FType.raw)] ++
        ("loan_to_value_ratio", FType.raw) :: [])
      [("debt_to_income_ratio", Value.i 1)] =
      .error (.missingField "loan_to_value_ratio") := by
  refine (C2_strict_missing_field
    [("debt_to_income_ratio", Value.i 1)]
    [("debt_to_income_ratio", FType.raw)]
    ("loan_to_value_ratio", FType.raw) [] (by decide)).2 ?_
  intro kt₁ hk
  rcases List.mem_singleton.mp hk with heq
  subst heq
  exact ⟨Value.i 1, by decide⟩

/-- C3 counterexample: on the approval endpoint the payload value of
`loan_amount` (schema position 4) — the string `"250000"` — is placed in
the feature vector unconverted: the endpoint neither coerces it to a
number nor raises a coercion error. -/
theorem C3_counterexample :
    approvalSchema.get? 4 = some ("loan_amount", FType.raw) ∧
    assemble approvalSchema pay3 = .ok vec3 ∧
    vec3.get? 4 = some (Value.s "250000") ∧
    Value.s "250000" ≠ Value.i 250000 := by
  decide

/-- C3 amended: only the property-value endpoint declares per-field
conversions — the approval, interest-rate and borrower-risk schemas are
conversion-free and assemble raw payload values — a failed conversion
raises an error naming the offending value (not the field), and the
concrete scenario holds for a schema declaring `c` integer: payload
`a=1, b=2.5, c="3"` assembles to `[1, 2.5, 3]`. -/
theorem C3_coercion_property_value_only :
    (∀ kt ∈ approvalSchema, kt.2 = FType.raw) ∧
    (∀ kt ∈ interestRateSchema, kt.2 = FType.raw) ∧
    (∀ kt ∈ borrowerRiskSchema, kt.2 = FType.raw) ∧
    (∀ fty v e, coerce fty v = .error e → e = .typeCoercion v) ∧
    q25 = (5 : Rat) / 2 ∧
    assemble [("a", FType.raw), ("b", FType.float), ("c", FType.int)]
        [("a", Value.i 1), ("b", Value.f q25), ("c", Value.s "3")] =
      .ok [Value.i 1, Value.f q25, Value.i 3] := by
  refine ⟨by decide, by decide, by decide,
    fun fty v e h => coerce_error_names_value h, ?_, by decide⟩
  rw [q25]
  rw [Rat.mk_eq_divInt, Rat.divInt_eq_div]
  norm_num

/-- Witness for C3 (amended): the first approval-schema field is
conversion-free, and converting the non-numeric string `"x"` to an
integer errors with the value itself. -/
theorem C3_coercion_property_value_only_witness :
    ("purchaser_type", FType.raw).2 = FType.raw ∧
    Err.typeCoercion (Value.s "x") = Err.typeCoercion (Value.s "x") :=
  ⟨C3_coercion_property_value_only.1 ("purchaser_type", FType.raw) (by decide),
   C3_coercion_property_value_only.2.2.2.1 FType.int (Value.s "x")
     (Err.typeCoercion (Value.s "x")) (by decide)⟩

/-- C4: with a positive chunk size and row cap, the loader returns
between `maxRows` and `maxRows + chSize - 1` rows when the source has at
least `maxRows + chSize` rows; returns exactly the source when the
source has fewer than `maxRows` rows; and always returns an initial
segment of the source — chunks concatenated in source order, nothing
deduplicated or sorted. -/
theorem C4_chunk_cap_bound {α : Type} (src : List α) (chSize maxRows : Nat)
    (hch : 1 ≤ chSize) (hmr : 1 ≤ maxRows) :
    (maxRows + chSize ≤ src.length →
      maxRows ≤ (load_chunked_data_from_db src chSize maxRows).length ∧
        (load_chunked_data_from_db src chSize maxRows).length ≤
          maxRows + chSize - 1) ∧
    (src.length < maxRows →
      load_chunked_data_from_db src chSize maxRows = src) ∧
    load_chunked_data_from_db src chSize maxRows <+: src := by
  refine ⟨fun hbig => ?_, fun hsmall => ?_, ?_⟩
  · have h := loadLoop_capped chSize maxRows hch src.length src le_rfl 0
      (by omega) (by omega)
    rw [load_chunked_data_from_db]
    omega
  · exact loadLoop_small chSize maxRows hch src.length src le_rfl 0 (by omega)
  · exact loadLoop_isPre chSize maxRows src.length src le_rfl 0

/-- Witness for C4: a ten-row source with chunk size 3 and cap 4 — the
loader returns between 4 and 6 rows, and an initial segment of the
source. -/
theorem C4_chunk_cap_bound_witness :
    4 ≤ (load_chunked_data_from_db src4 3 4).length ∧
    (load_chunked_data_from_db src4 3 4).length ≤ 4 + 3 - 1 ∧
    load_chunked_data_from_db src4 3 4 <+: src4 := by
  have h := C4_chunk_cap_bound src4 3 4 (by decide) (by decide)
  exact ⟨(h.1 (by decide)).1, (h.1 (by decide)).2, h.2.2⟩

/-- C5: evaluation of the page-1 `update_page` callback at a filter
state whose filtered view is empty (year range 2019–2019 with state
`"ZZ"` selected, on a one-record CA dataset).  The empty-view guard does
fire before any rate or mean is computed, but the placeholder it returns
has seven values while the callback declares eight outputs — the
framework rejects the return instead of rendering placeholders. -/
theorem C5_empty_view_arity :
    pageFiltered [row0] 2019 2019 (some "ZZ") = [] ∧
    update_page [row0] 2019 2019 (some "ZZ") =
      [Out.figEmpty, Out.figEmpty, Out.figEmpty,
       Out.txt "0%", Out.txt "0%", Out.txt "$0", Out.txt "0%"] ∧
    (update_page [row0] 2019 2019 (some "ZZ")).length = 7 ∧
    page1Outputs.length = 8 := by
  decide

/-- C6 counterexample: the `/predict` route, invoked against a model
expecting 44 inputs with a full payload (assembled vector length 45),
fails with the library's own shape error — the route performs no length
validation of its own before handing the vector to the library, and no
repository-raised inference error exists. -/
theorem C6_counterexample :
    predictRoute model44 pay1 = .error (.libraryShape 44 45) := by
  decide

/-- C6 amended: the `/predict` route performs no explicit length check:
whenever the assembled vector's length differs from the model's
expected dimensionality, the failure the caller sees is the model
library's own shape error raised at invocation, not a pre-invocation
check by the route. -/
theorem C6_no_length_check :
    ∀ (m : Model) (p : Payload) (v : List Value),
      assemble approvalSchema p = .ok v → v.length ≠ m.dim →
        predictRoute m p = .error (.libraryShape m.dim v.length) := by
  intro m p v h hne
  rw [predictRoute, h]
  show libPredict m v = _
  rw [libPredict, if_neg hne]

/-- Witness for C6 (amended): a model expecting 10 inputs receives the
45-entry approval vector and the library shape error surfaces. -/
theorem C6_no_length_check_witness :
    predictRoute model10 pay1 = .error (.libraryShape 10 45) := by
  have h := C6_no_length_check model10 pay1 vec1 (by decide) (by decide)
  simpa using h

/-- C7 counterexample: the outcome code 4 (`Application withdrawn`) is
not in the `action_labels` dictionary of page 1, and its derived
`action_label` is the missing marker (`NaN`), not the original value —
the derivation has no fallback. -/
theorem C7_counterexample :
    action_labels.lookup 4 = none ∧ actionLabel (some 4) = none := by
  decide

/-- C7 amended: the `loan_type` (page 5) and `loan_purpose` (page 4)
derivations chain `.fillna`, so an unmapped value passes through
retaining its original value; the `action_label` derivation does not,
so an unmapped code becomes the missing marker. -/
theorem C7_label_fallback :
    (∀ v, loan_type_map.lookup v = none → loanTypeLabel v = v) ∧
    (∀ v, purpose_map.lookup v = none → purposeLabel v = v) ∧
    (∀ c, action_labels.lookup c = none → actionLabel (some c) = none) := by
  refine ⟨fun v hv => ?_, fun v hv => ?_, fun c hc => ?_⟩
  · rw [loanTypeLabel, hv]
    rfl
  · rw [purposeLabel, hv]
    rfl
  · rw [actionLabel, Option.some_bind, hc]

/-- Witness for C7 (amended): `"999"` is not a loan-type code and passes
through; 9 is not an action code and maps to missing. -/
theorem C7_label_fallback_witness :
    loanTypeLabel "999" = "999" ∧ actionLabel (some 9) = none :=
  ⟨C7_label_fallback.1 "999" (by decide), C7_label_fallback.2.2 9 (by decide)⟩

/-- C8 counterexample: on a dataset holding a 2019 record and a record
whose `activity_year` is missing (`NaN` after numeric coercion), the
page-1 year slider at its full extent (2019–2019, the only present
year) with the state dropdown cleared drops the missing-year record —
the unfiltered state is not a no-op. -/
theorem C8_counterexample :
    yearsPresent dfC8 = [2019] ∧
    pageFiltered dfC8 2019 2019 none = [row0] ∧
    pageFiltered dfC8 2019 2019 none ≠ dfC8 := by
  decide

/-- C8 amended: clearing all four dropdowns of the page-3 callback is a
no-op for every dataset; the page-1 year-range filter (with the state
dropdown cleared) is a no-op exactly when every record's
`activity_year` is present and lies within the slider range. -/
theorem C8_empty_filter_noop :
    ∀ (df : List Row),
      riskFiltered df [] [] [] [] = df ∧
      ∀ y0 y1 : Int,
        (∀ r ∈ df, ∃ y, r.activity_year = some y ∧ y0 ≤ y ∧ y ≤ y1) →
          pageFiltered df y0 y1 none = df := by
  intro df
  constructor
  · rw [riskFiltered]
    simp
  · intro y0 y1 hall
    show df.filter _ = df
    apply List.filter_eq_self.mpr
    intro r hr
    obtain ⟨y, hy, h0, h1⟩ := hall r hr
    simp [numGe, numLe, hy, h0, h1]

/-- Witness for C8 (amended): a singleton 2019 dataset is returned
unchanged both by the cleared page-3 filters and by the full-extent
page-1 year filter. -/
theorem C8_empty_filter_noop_witness :
    riskFiltered [row0] [] [] [] [] = [row0] ∧
    pageFiltered [row0] 2019 2019 none = [row0] := by
  have h := C8_empty_filter_noop [row0]
  refine ⟨h.1, h.2 2019 2019 ?_⟩
  intro r hr
  have heq := List.mem_singleton.mp hr
  subst heq
  exact ⟨2019, rfl, by decide, by decide⟩

/-- C9 counterexample: the property-value feature list has 52 entries,
not the 49 the specification states. -/
theorem C9_counterexample :
    propertyValueSchema.length = 52 ∧ propertyValueSchema.length ≠ 49 := by
  decide

/-- C9 amended: the four schemas have the fixed lengths 45 (approval),
38 (borrower risk), 30 (interest rate) and 52 (property value), and
every vector an endpoint assembles has exactly its schema's length. -/
theorem C9_schema_lengths :
    approvalSchema.length = 45 ∧
    borrowerRiskSchema.length = 38 ∧
    interestRateSchema.length = 30 ∧
    propertyValueSchema.length = 52 ∧
    ∀ schema ∈ endpointSchemas, ∀ (p : Payload) (v : List Value),
      assemble schema p = .ok v → v.length = schema.length := by
  refine ⟨by decide, by decide, by decide, by decide, ?_⟩
  intro schema _ p v h
  exact assemble_ok_length h

/-- Witness for C9 (amended): the approval endpoint assembles `pay1` to
a 45-entry vector. -/
theorem C9_schema_lengths_witness : vec1.length = approvalSchema.length :=
  C9_schema_lengths.2.2.2.2 approvalSchema (by decide) pay1 vec1 (by decide)

/-- C10: whatever the user's filter selections on the geographic page
(including no loan-purpose selection at all), every record reaching the
state-level and purpose-level groupbys has a relabelled `loan_purpose`
that is neither the code `"5"` nor the label `"Not applicable"`, and a
source record carrying either of those values is excluded. -/
theorem C10_not_applicable_excluded :
    ∀ (df : List Row) (year : Option Int) (state purpose : Option String),
      (∀ r ∈ geoFiltered df year state purpose,
        r.loan_purpose ≠ "5" ∧ r.loan_purpose ≠ "Not applicable") ∧
      (∀ r ∈ df, r.loan_purpose = "5" ∨ r.loan_purpose = "Not applicable" →
        labelRow r ∉ geoFiltered df year state purpose) := by
  intro df year state purpose
  have hprop : ∀ r ∈ geoFiltered df year state purpose,
      r.loan_purpose ≠ "5" ∧ r.loan_purpose ≠ "Not applicable" := by
    intro r hr
    simp only [geoFiltered] at hr
    have h2 := List.mem_filter.mp hr
    have h1 := List.mem_filter.mp h2.1
    constructor
    · simpa using h1.2
    · simpa using h2.2
  refine ⟨hprop, ?_⟩
  intro r _ hpurp hmem
  have h := hprop _ hmem
  have hlabel : (labelRow r).loan_purpose = purposeLabel r.loan_purpose := rfl
  rcases hpurp with h5 | hna
  · refine h.1 ?_
    rw [hlabel, h5]
    decide
  · refine h.2 ?_
    rw [hlabel, hna]
    decide

/-- Witness for C10: a record with purpose code `"5"` is excluded from
the grouped data even with every filter cleared. -/
theorem C10_not_applicable_excluded_witness :
    labelRow rowP5 ∉ geoFiltered [rowP5] none none none :=
  (C10_not_applicable_excluded [rowP5] none none none).2 rowP5 (by decide)
    (Or.inl rfl)

end HomeLoan
